import Mathlib

/-!
Verification development for the ogl-editor repository.

The repository is a browser-hosted shader editor: three text buffers
(vertex shader, fragment shader, driver script), a run/stop lifecycle that
splices the shader sources into the driver script and injects the result
into the page as a script element, JSON import/export of the project, a
static example catalog, and static language-assist tables for the editor
widget.

This file gives a shallow embedding of that code (src/components/OGLEditor.tsx,
src/lib/examples.ts, src/shaders/examples.ts) and proves or refutes the
stated properties about it.  JavaScript strings are modelled as Lean
String/List Char; the page state (the single script element addressed by
the id shader-script, the optional window.cleanupShader hook, the animation
frame handle, the canvas) is modelled by explicit fields of an EditorState
record; code that can raise is modelled with Except, and the source's
try/catch blocks appear as explicit catches.
-/

/-- The built-in default vertex shader (src/lib/examples.ts). -/
def defaultVertexShader : String :=
  "attribute vec3 position;\nattribute vec2 uv;\n\nuniform mat4 modelViewMatrix;\nuniform mat4 projectionMatrix;\n\nvarying vec2 vUv;\n\nvoid main() \x7b\n  vUv = uv;\n  gl_Position = projectionMatrix * modelViewMatrix * vec4(position, 1.0);\n\x7d"

/-- The built-in default fragment shader (src/lib/examples.ts). -/
def defaultFragmentShader : String :=
  "precision mediump float;\n\nuniform float time;\nuniform vec2 resolution;\nuniform vec2 mouse;\n\nvarying vec2 vUv;\n\nvoid main() \x7b\n  vec2 st = vUv;\n  \n  // Animated gradient\n  vec3 color = vec3(0.0);\n  color.r = sin(time + st.x * 3.14159) * 0.5 + 0.5;\n  color.g = cos(time + st.y * 3.14159) * 0.5 + 0.5;\n  color.b = sin(time * 2.0 + st.x * st.y * 10.0) * 0.5 + 0.5;\n  \n  // Mouse interaction\n  vec2 mousePos = mouse / resolution;\n  float dist = distance(st, mousePos);\n  color *= 1.0 - dist * 2.0;\n  \n  gl_FragColor = vec4(color, 1.0);\n\x7d"

/-- The built-in default driver script (src/lib/examples.ts). -/
def defaultJavaScript : String :=
  "// WebGL setup without OGL - Pure WebGL implementation\n(function() \x7b\n  \x27use strict\x27;\n  \n  // Stop any existing animation\n  if (window.currentAnimationFrame) \x7b\n    cancelAnimationFrame(window.currentAnimationFrame);\n  \x7d\n  \n  const canvas = document.getElementById(\x27glCanvas\x27);\n  if (!canvas) \x7b\n    console.error(\x27Canvas element not found\x27);\n    return;\n  \x7d\n  \n  const gl = canvas.getContext(\x27webgl\x27) || canvas.getContext(\x27experimental-webgl\x27);\n\n  if (!gl) \x7b\n    console.error(\x27WebGL not supported\x27);\n    return;\n  \x7d\n\n  // Set canvas size\n  canvas.width = canvas.clientWidth;\n  canvas.height = canvas.clientHeight;\n  gl.viewport(0, 0, canvas.width, canvas.height);\n\n  // Vertex data for a full-screen quad\n  const vertices = new Float32Array([\n    -1, -1,  0, 1,\n     1, -1,  1, 1,\n    -1,  1,  0, 0,\n     1,  1,  1, 0\n  ]);\n\n  // Create and bind vertex buffer\n  const vertexBuffer = gl.createBuffer();\n  gl.bindBuffer(gl.ARRAY_BUFFER, vertexBuffer);\n  gl.bufferData(gl.ARRAY_BUFFER, vertices, gl.STATIC_DRAW);\n\n  // Shader compilation helper\n  function createShader(gl, type, source) \x7b\n    const shader = gl.createShader(type);\n    gl.shaderSource(shader, source);\n    gl.compileShader(shader);\n    \n    if (!gl.getShaderParameter(shader, gl.COMPILE_STATUS)) \x7b\n      console.error(\x27Shader compilation error:\x27, gl.getShaderInfoLog(shader));\n      gl.deleteShader(shader);\n      return null;\n    \x7d\n    \n    return shader;\n  \x7d\n\n  // Create shader program\n  function createProgram(gl, vertexSource, fragmentSource) \x7b\n    const vertexShader = createShader(gl, gl.VERTEX_SHADER, vertexSource);\n    const fragmentShader = createShader(gl, gl.FRAGMENT_SHADER, fragmentSource);\n    \n    if (!vertexShader || !fragmentShader) \x7b\n      return null;\n    \x7d\n    \n    const program = gl.createProgram();\n    gl.attachShader(program, vertexShader);\n    gl.attachShader(program, fragmentShader);\n    gl.linkProgram(program);\n    \n    if (!gl.getProgramParameter(program, gl.LINK_STATUS)) \x7b\n      console.error(\x27Program linking error:\x27, gl.getProgramInfoLog(program));\n      gl.deleteProgram(program);\n      return null;\n    \x7d\n    \n    return program;\n  \x7d\n\n  // Create the shader program\n  const program = createProgram(gl, \x60$\x7bvertexShader\x7d\x60, \x60$\x7bfragmentShader\x7d\x60);\n\n  if (!program) \x7b\n    console.error(\x27Failed to create shader program\x27);\n    return;\n  \x7d\n\n  // Get attribute and uniform locations\n  const positionLocation = gl.getAttribLocation(program, \x27position\x27);\n  const uvLocation = gl.getAttribLocation(program, \x27uv\x27);\n  const timeLocation = gl.getUniformLocation(program, \x27time\x27);\n  const resolutionLocation = gl.getUniformLocation(program, \x27resolution\x27);\n  const mouseLocation = gl.getUniformLocation(program, \x27mouse\x27);\n  const modelViewMatrixLocation = gl.getUniformLocation(program, \x27modelViewMatrix\x27);\n  const projectionMatrixLocation = gl.getUniformLocation(program, \x27projectionMatrix\x27);\n\n  // Mouse tracking\n  let mouse = \x7b x: 0, y: 0 \x7d;\n  \n  function handleMouseMove(e) \x7b\n    const rect = canvas.getBoundingClientRect();\n    mouse.x = e.clientX - rect.left;\n    mouse.y = canvas.height - (e.clientY - rect.top);\n  \x7d\n  \n  canvas.addEventListener(\x27mousemove\x27, handleMouseMove);\n\n  // Create identity matrix\n  function createIdentityMatrix() \x7b\n    return [\n      1, 0, 0, 0,\n      0, 1, 0, 0,\n      0, 0, 1, 0,\n      0, 0, 0, 1\n    ];\n  \x7d\n\n  // Render function\n  function render(time) \x7b\n    // Resize canvas if needed\n    if (canvas.width !== canvas.clientWidth || canvas.height !== canvas.clientHeight) \x7b\n      canvas.width = canvas.clientWidth;\n      canvas.height = canvas.clientHeight;\n      gl.viewport(0, 0, canvas.width, canvas.height);\n    \x7d\n    \n    // Clear canvas\n    gl.clearColor(0, 0, 0, 1);\n    gl.clear(gl.COLOR_BUFFER_BIT);\n    \n    // Use program\n    gl.useProgram(program);\n    \n    // Set up attributes\n    gl.bindBuffer(gl.ARRAY_BUFFER, vertexBuffer);\n    \n    if (positionLocation >= 0) \x7b\n      gl.enableVertexAttribArray(positionLocation);\n      gl.vertexAttribPointer(positionLocation, 2, gl.FLOAT, false, 16, 0);\n    \x7d\n    \n    if (uvLocation >= 0) \x7b\n      gl.enableVertexAttribArray(uvLocation);\n      gl.vertexAttribPointer(uvLocation, 2, gl.FLOAT, false, 16, 8);\n    \x7d\n    \n    // Set uniforms\n    if (timeLocation) \x7b\n      gl.uniform1f(timeLocation, time * 0.001);\n    \x7d\n    \n    if (resolutionLocation) \x7b\n      gl.uniform2f(resolutionLocation, canvas.width, canvas.height);\n    \x7d\n    \n    if (mouseLocation) \x7b\n      gl.uniform2f(mouseLocation, mouse.x, mouse.y);\n    \x7d\n    \n    if (modelViewMatrixLocation) \x7b\n      gl.uniformMatrix4fv(modelViewMatrixLocation, false, createIdentityMatrix());\n    \x7d\n    \n    if (projectionMatrixLocation) \x7b\n      gl.uniformMatrix4fv(projectionMatrixLocation, false, createIdentityMatrix());\n    \x7d\n    \n    // Draw\n    gl.drawArrays(gl.TRIANGLE_STRIP, 0, 4);\n    \n    window.currentAnimationFrame = requestAnimationFrame(render);\n  \x7d\n\n  // Start rendering\n  window.currentAnimationFrame = requestAnimationFrame(render);\n  \n  // Cleanup function for when shader stops\n  window.cleanupShader = function() \x7b\n    if (window.currentAnimationFrame) \x7b\n      cancelAnimationFrame(window.currentAnimationFrame);\n      window.currentAnimationFrame = null;\n    \x7d\n    canvas.removeEventListener(\x27mousemove\x27, handleMouseMove);\n  \x7d;\n\x7d)();"

/-- Entry of the shaderExamples catalog (src/shaders/examples.ts). -/
def basicVertexSource : String :=
  "attribute vec3 position;\nattribute vec2 uv;\n\nuniform mat4 modelViewMatrix;\nuniform mat4 projectionMatrix;\n\nvarying vec2 vUv;\n\nvoid main() \x7b\n  vUv = uv;\n  gl_Position = projectionMatrix * modelViewMatrix * vec4(position, 1.0);\n\x7d"

/-- Entry of the shaderExamples catalog (src/shaders/examples.ts). -/
def basicFragmentSource : String :=
  "precision mediump float;\n\nuniform float time;\nuniform vec2 resolution;\nuniform vec2 mouse;\n\nvarying vec2 vUv;\n\nvoid main() \x7b\n  vec2 st = vUv;\n  \n  // Animated gradient\n  vec3 color = vec3(0.0);\n  color.r = sin(time + st.x * 3.14159) * 0.5 + 0.5;\n  color.g = cos(time + st.y * 3.14159) * 0.5 + 0.5;\n  color.b = sin(time * 2.0 + st.x * st.y * 10.0) * 0.5 + 0.5;\n  \n  // Mouse interaction\n  vec2 mousePos = mouse / resolution;\n  float dist = distance(st, mousePos);\n  color *= 1.0 - dist * 2.0;\n  \n  gl_FragColor = vec4(color, 1.0);\n\x7d"

/-- Entry of the shaderExamples catalog (src/shaders/examples.ts). -/
def raymarchingVertexSource : String :=
  "attribute vec3 position;\nattribute vec2 uv;\n\nuniform mat4 modelViewMatrix;\nuniform mat4 projectionMatrix;\n\nvarying vec2 vUv;\n\nvoid main() \x7b\n  vUv = uv;\n  gl_Position = projectionMatrix * modelViewMatrix * vec4(position, 1.0);\n\x7d"

/-- Entry of the shaderExamples catalog (src/shaders/examples.ts). -/
def raymarchingFragmentSource : String :=
  "precision mediump float;\n\nuniform float time;\nuniform vec2 resolution;\nuniform vec2 mouse;\n\nvarying vec2 vUv;\n\n// Distance function for a sphere\nfloat sdSphere(vec3 p, float r) \x7b\n  return length(p) - r;\n\x7d\n\n// Distance function for a box\nfloat sdBox(vec3 p, vec3 b) \x7b\n  vec3 q = abs(p) - b;\n  return length(max(q, 0.0)) + min(max(q.x, max(q.y, q.z)), 0.0);\n\x7d\n\n// Scene distance function\nfloat map(vec3 p) \x7b\n  // Animate position\n  p.y += sin(time + p.x) * 0.2;\n  p.x += cos(time * 0.7 + p.z) * 0.3;\n  \n  // Create multiple spheres\n  float sphere1 = sdSphere(p - vec3(0.0, 0.0, 0.0), 0.5);\n  float sphere2 = sdSphere(p - vec3(sin(time) * 2.0, 0.0, cos(time) * 2.0), 0.3);\n  float box = sdBox(p - vec3(0.0, sin(time * 1.3) * 0.5, 0.0), vec3(0.3));\n  \n  return min(min(sphere1, sphere2), box);\n\x7d\n\n// Calculate normal\nvec3 calcNormal(vec3 p) \x7b\n  const float h = 0.001;\n  const vec2 k = vec2(1, -1);\n  return normalize(k.xyy * map(p + k.xyy * h) +\n                   k.yyx * map(p + k.yyx * h) +\n                   k.yxy * map(p + k.yxy * h) +\n                   k.xxx * map(p + k.xxx * h));\n\x7d\n\n// Raymarching\nfloat rayMarch(vec3 ro, vec3 rd) \x7b\n  float t = 0.0;\n  for (int i = 0; i < 100; i++) \x7b\n    vec3 p = ro + rd * t;\n    float d = map(p);\n    if (d < 0.001) break;\n    t += d;\n    if (t > 100.0) break;\n  \x7d\n  return t;\n\x7d\n\nvoid main() \x7b\n  vec2 st = (vUv - 0.5) * 2.0;\n  st.x *= resolution.x / resolution.y;\n  \n  // Camera\n  vec3 ro = vec3(0.0, 0.0, 3.0);\n  vec3 rd = normalize(vec3(st, -1.0));\n  \n  // Raymarching\n  float t = rayMarch(ro, rd);\n  \n  vec3 color = vec3(0.0);\n  \n  if (t < 100.0) \x7b\n    vec3 p = ro + rd * t;\n    vec3 n = calcNormal(p);\n    \n    // Lighting\n    vec3 lightPos = vec3(2.0, 2.0, 4.0);\n    vec3 lightDir = normalize(lightPos - p);\n    float diff = max(dot(n, lightDir), 0.0);\n    \n    // Colors based on position and normal\n    color = vec3(0.2 + 0.8 * diff);\n    color *= vec3(0.5 + 0.5 * n.x, 0.5 + 0.5 * n.y, 0.5 + 0.5 * n.z);\n  \x7d else \x7b\n    // Background gradient\n    color = vec3(0.1, 0.2, 0.4) + st.y * 0.1;\n  \x7d\n  \n  gl_FragColor = vec4(color, 1.0);\n\x7d"

/-- Entry of the shaderExamples catalog (src/shaders/examples.ts). -/
def fractalVertexSource : String :=
  "attribute vec3 position;\nattribute vec2 uv;\n\nuniform mat4 modelViewMatrix;\nuniform mat4 projectionMatrix;\n\nvarying vec2 vUv;\n\nvoid main() \x7b\n  vUv = uv;\n  gl_Position = projectionMatrix * modelViewMatrix * vec4(position, 1.0);\n\x7d"

/-- Entry of the shaderExamples catalog (src/shaders/examples.ts). -/
def fractalFragmentSource : String :=
  "precision mediump float;\n\nuniform float time;\nuniform vec2 resolution;\nuniform vec2 mouse;\n\nvarying vec2 vUv;\n\nvec2 complexMul(vec2 a, vec2 b) \x7b\n  return vec2(a.x * b.x - a.y * b.y, a.x * b.y + a.y * b.x);\n\x7d\n\nfloat julia(vec2 z, vec2 c) \x7b\n  for (int i = 0; i < 100; i++) \x7b\n    if (length(z) > 2.0) \x7b\n      return float(i) / 100.0;\n    \x7d\n    z = complexMul(z, z) + c;\n  \x7d\n  return 0.0;\n\x7d\n\nvoid main() \x7b\n  vec2 st = (vUv - 0.5) * 2.0;\n  st.x *= resolution.x / resolution.y;\n  \n  // Zoom and pan\n  st *= 1.5;\n  st += vec2(sin(time * 0.1) * 0.3, cos(time * 0.13) * 0.3);\n  \n  // Julia set parameters\n  vec2 c = vec2(\n    sin(time * 0.2) * 0.7,\n    cos(time * 0.3) * 0.7\n  );\n  \n  float iter = julia(st, c);\n  \n  // Color based on iterations\n  vec3 color = vec3(0.0);\n  color.r = sin(iter * 3.14159 * 2.0) * 0.5 + 0.5;\n  color.g = sin(iter * 3.14159 * 4.0 + 2.0) * 0.5 + 0.5;\n  color.b = sin(iter * 3.14159 * 6.0 + 4.0) * 0.5 + 0.5;\n  \n  // Add some brightness variation\n  color *= 0.5 + 0.5 * iter;\n  \n  gl_FragColor = vec4(color, 1.0);\n\x7d"

/-- Entry of the shaderExamples catalog (src/shaders/examples.ts). -/
def noiseVertexSource : String :=
  "attribute vec3 position;\nattribute vec2 uv;\n\nuniform mat4 modelViewMatrix;\nuniform mat4 projectionMatrix;\n\nvarying vec2 vUv;\n\nvoid main() \x7b\n  vUv = uv;\n  gl_Position = projectionMatrix * modelViewMatrix * vec4(position, 1.0);\n\x7d"

/-- Entry of the shaderExamples catalog (src/shaders/examples.ts). -/
def noiseFragmentSource : String :=
  "precision mediump float;\n\nuniform float time;\nuniform vec2 resolution;\nuniform vec2 mouse;\n\nvarying vec2 vUv;\n\n// Noise functions\nfloat random(vec2 st) \x7b\n  return fract(sin(dot(st.xy, vec2(12.9898, 78.233))) * 43758.5453123);\n\x7d\n\nfloat noise(vec2 st) \x7b\n  vec2 i = floor(st);\n  vec2 f = fract(st);\n  \n  float a = random(i);\n  float b = random(i + vec2(1.0, 0.0));\n  float c = random(i + vec2(0.0, 1.0));\n  float d = random(i + vec2(1.0, 1.0));\n  \n  vec2 u = f * f * (3.0 - 2.0 * f);\n  \n  return mix(a, b, u.x) + (c - a) * u.y * (1.0 - u.x) + (d - b) * u.x * u.y;\n\x7d\n\nfloat fbm(vec2 st) \x7b\n  float value = 0.0;\n  float amplitude = 0.5;\n  float frequency = 0.0;\n  \n  for (int i = 0; i < 5; i++) \x7b\n    value += amplitude * noise(st);\n    st *= 2.0;\n    amplitude *= 0.5;\n  \x7d\n  return value;\n\x7d\n\nvoid main() \x7b\n  vec2 st = vUv;\n  \n  // Scale and move\n  st *= 3.0;\n  st += vec2(time * 0.1, time * 0.05);\n  \n  // Generate fractal noise\n  float n = fbm(st);\n  \n  // Add some movement\n  vec2 q = vec2(fbm(st + vec2(0.0, 0.0)),\n                fbm(st + vec2(5.2, 1.3)));\n  \n  vec2 r = vec2(fbm(st + 4.0 * q + vec2(1.7, 9.2) + time * 0.15),\n                fbm(st + 4.0 * q + vec2(8.3, 2.8) + time * 0.126));\n  \n  float f = fbm(st + r);\n  \n  // Color mapping\n  vec3 color = vec3(0.0);\n  color = mix(vec3(0.101961, 0.619608, 0.666667),\n              vec3(0.666667, 0.666667, 0.498039),\n              clamp((f * f) * 4.0, 0.0, 1.0));\n              \n  color = mix(color,\n              vec3(0.0, 0.0, 0.164706),\n              clamp(length(q), 0.0, 1.0));\n              \n  color = mix(color,\n              vec3(0.666667, 1.0, 1.0),\n              clamp(length(r.x), 0.0, 1.0));\n  \n  gl_FragColor = vec4(color, 1.0);\n\x7d"

/-- The backslash character. -/
def bsl : Char := '\\'

/-- The backtick character (U+0060). -/
def backtickChar : Char := Char.ofNat 96

/-- The dollar-sign character. -/
def dollarChar : Char := '$'

/-- The apostrophe character (U+0027). -/
def apostropheChar : Char := Char.ofNat 39

/-- The literal placeholder token for the vertex shader inside the driver
script (OGLEditor.tsx line 342, regex pattern over a literal string). -/
def vertexToken : String := "$\x7bvertexShader\x7d"

/-- The literal placeholder token for the fragment shader inside the driver
script (OGLEditor.tsx line 343). -/
def fragmentToken : String := "$\x7bfragmentShader\x7d"

/-- Does the second list start with the first one?  Used to locate literal
pattern occurrences, as the JavaScript regexes in the source are all
literal strings. -/
def leadsWith : List Char → List Char → Bool
  | [], _ => true
  | _ :: _, [] => false
  | a :: as, b :: bs => a == b && leadsWith as bs

/-- ECMAScript GetSubstitution applied to a replacement string: in
String.prototype.replace the replacement text is scanned for dollar
patterns.  With no capture groups in the pattern (true of every regex in
OGLEditor.tsx), the recognised patterns are two dollars giving one dollar,
dollar-ampersand giving the matched substring, dollar-backtick giving the
portion of the subject before the match, and dollar-apostrophe giving the
portion after the match; any other dollar is literal. -/
def getSubstitution (matched before after : List Char) : List Char → List Char
  | [] => []
  | [c] => [c]
  | c :: d :: rest =>
    if c = dollarChar then
      if d = dollarChar then dollarChar :: getSubstitution matched before after rest
      else if d = '&' then matched ++ getSubstitution matched before after rest
      else if d = backtickChar then before ++ getSubstitution matched before after rest
      else if d = apostropheChar then after ++ getSubstitution matched before after rest
      else dollarChar :: getSubstitution matched before after (d :: rest)
    else c :: getSubstitution matched before after (d :: rest)

/-- Fuelled worker for jsReplaceAll: scans the remaining subject left to
right, keeping the already consumed prefix of the original subject (needed
by GetSubstitution); on a literal match of the pattern it emits the
substituted replacement and resumes after the match, as a global
JavaScript replace does.  Fuel bounds the recursion; the wrapper passes
the subject length, which is always sufficient for a nonempty pattern. -/
def jsReplaceAllFuel (pat rep : List Char) : Nat → List Char → List Char → List Char
  | 0, _, s => s
  | _ + 1, _, [] => []
  | n + 1, before, c :: rest =>
    if leadsWith pat (c :: rest) then
      getSubstitution pat before ((c :: rest).drop pat.length) rep
        ++ jsReplaceAllFuel pat rep n (before ++ pat) ((c :: rest).drop pat.length)
    else
      c :: jsReplaceAllFuel pat rep n (before ++ [c]) rest

/-- Model of s.replace(pattern-as-literal-regex with the g flag,
replacement-string): every non-overlapping occurrence of pat in s is
replaced, left to right, by the GetSubstitution expansion of rep. -/
def jsReplaceAll (s pat rep : List Char) : List Char :=
  jsReplaceAllFuel pat rep s.length [] s

/-- Escaping applied to a shader source before splicing it into the driver
script (OGLEditor.tsx lines 331-339): double every backslash, then prefix
every backtick with a backslash, then prefix every dollar with a
backslash.  Each step is a global replace whose replacement string
contains no effective dollar pattern. -/
def escapeShaderSource (src : List Char) : List Char :=
  let s1 := jsReplaceAll src [bsl] [bsl, bsl]
  let s2 := jsReplaceAll s1 [backtickChar] [bsl, backtickChar]
  jsReplaceAll s2 [dollarChar] [bsl, dollarChar]

/-- The splice of the escaped shader sources into the driver script
(OGLEditor.tsx lines 341-343): replace every occurrence of the vertex
placeholder token by the escaped vertex source, then every occurrence of
the fragment placeholder token by the escaped fragment source. -/
def buildExecutableScript (jsCode vertexShader fragmentShader : String) : String :=
  let ev := escapeShaderSource vertexShader.toList
  let ef := escapeShaderSource fragmentShader.toList
  let step1 := jsReplaceAll jsCode.toList vertexToken.toList ev
  let step2 := jsReplaceAll step1 fragmentToken.toList ef
  step2.asString

/-- Inverse of the escaping: a backslash makes the next character literal.
Substituting a placeholder region back out of a produced script means
recovering the shader source from its escaped, spliced form with this
function. -/
def unescapeShaderSource : List Char → List Char
  | [] => []
  | [c] => [c]
  | c :: d :: rest =>
    if c = bsl then d :: unescapeShaderSource rest
    else c :: unescapeShaderSource (d :: rest)

/-- String wrapper for unescapeShaderSource. -/
def unescapeS (s : String) : String :=
  (unescapeShaderSource s.toList).asString
/-- The component state of OGLEditor together with the page-global slots it
manipulates.  The three text buffers are the useState values vertexShader,
fragmentShader and jsCode; isRunning is the run flag; scriptCount is the
number of elements with id shader-script attached to the page (a Nat so
that the at-most-one invariant is a statement, not an assumption);
cleanupHook records whether window.cleanupShader is defined and
cleanupThrows whether invoking it raises; animationFrame is the
animationFrameRef handle; canvasPresent records whether canvasRef.current
is non-null; injectionThrows records whether creating or attaching the
script element raises; scriptRegistersHook records whether the injected
script, once attached, installs window.cleanupShader.  The last four are
environment facts: no operation of the component changes them. -/
structure EditorState where
  vertexShader : String
  fragmentShader : String
  jsCode : String
  isRunning : Bool
  scriptCount : Nat
  cleanupHook : Bool
  cleanupThrows : Bool
  animationFrame : Option Nat
  canvasPresent : Bool
  injectionThrows : Bool
  scriptRegistersHook : Bool
  deriving DecidableEq, Repr

/-- A parsed project document, the shape produced by exportCode and
consumed by importCode: three optional string fields plus an optional
timestamp.  A missing field models an absent JSON key (the property read
yields undefined). -/
structure ProjectDoc where
  vertexShader : Option String
  fragmentShader : Option String
  jsCode : Option String
  timestamp : Option String
  deriving DecidableEq, Repr

/-- exportCode (OGLEditor.tsx lines 403-418): serialises the three buffers
plus a timestamp taken from the current time.  The download plumbing
(blob, anchor element) carries no state and is not modelled. -/
def exportProject (s : EditorState) (timestamp : String) : ProjectDoc :=
  { vertexShader := some s.vertexShader
    fragmentShader := some s.fragmentShader
    jsCode := some s.jsCode
    timestamp := some timestamp }

/-- The JavaScript expression field-or-default, i.e. data.x || dflt in
importCode: undefined (absent field) and the empty string are both falsy,
so either yields the default. -/
def jsOrDefault (field : Option String) (dflt : String) : String :=
  match field with
  | none => dflt
  | some s => if s = "" then dflt else s

/-- importCode (OGLEditor.tsx lines 429-433) applied to an already parsed
document: each of the three buffers is replaced by the corresponding field
when that field is truthy, and by the built-in default otherwise; the
timestamp and any unknown keys are ignored; nothing else in the state is
touched. -/
def importProject (doc : ProjectDoc) (s : EditorState) : EditorState :=
  { s with
    vertexShader := jsOrDefault doc.vertexShader defaultVertexShader
    fragmentShader := jsOrDefault doc.fragmentShader defaultFragmentShader
    jsCode := jsOrDefault doc.jsCode defaultJavaScript }

/-- resetCode (OGLEditor.tsx lines 397-401): replace the three buffers with
the built-in defaults. -/
def resetCode (s : EditorState) : EditorState :=
  { s with
    vertexShader := defaultVertexShader
    fragmentShader := defaultFragmentShader
    jsCode := defaultJavaScript }

/-- One entry of the example catalog: a vertex source and a fragment
source. -/
structure ShaderExample where
  vertex : String
  fragment : String
  deriving DecidableEq, Repr

/-- The basic entry of shaderExamples (src/shaders/examples.ts). -/
def basicExample : ShaderExample :=
  { vertex := basicVertexSource, fragment := basicFragmentSource }

/-- The raymarching entry of shaderExamples. -/
def raymarchingExample : ShaderExample :=
  { vertex := raymarchingVertexSource, fragment := raymarchingFragmentSource }

/-- The fractal entry of shaderExamples. -/
def fractalExample : ShaderExample :=
  { vertex := fractalVertexSource, fragment := fractalFragmentSource }

/-- The noise entry of shaderExamples. -/
def noiseExample : ShaderExample :=
  { vertex := noiseVertexSource, fragment := noiseFragmentSource }

/-- The shaderExamples catalog as a lookup: the property access
shaderExamples[name] yields the entry for the four known keys and
undefined (here none) for every other name. -/
def shaderExamples (name : String) : Option ShaderExample :=
  if name = "basic" then some basicExample
  else if name = "raymarching" then some raymarchingExample
  else if name = "fractal" then some fractalExample
  else if name = "noise" then some noiseExample
  else none

/-- The body of loadExample before its try/catch (OGLEditor.tsx lines
446-449): reading .vertex on the undefined result of a failed catalog
lookup raises a TypeError; otherwise the vertex and fragment buffers are
replaced and nothing else changes (setShowExamples touches only the
dropdown flag, which is not part of the modelled state). -/
def loadExampleBody (name : String) (s : EditorState) : Except String EditorState :=
  match shaderExamples name with
  | some ex =>
      Except.ok { s with vertexShader := ex.vertex, fragmentShader := ex.fragment }
  | none => Except.error "TypeError: cannot read properties of undefined"

/-- loadExample (OGLEditor.tsx lines 444-453): the body runs under a
try/catch whose handler only logs, so the caller always receives a normal
return; a failure leaves the state unchanged. -/
def loadExample (name : String) (s : EditorState) : Except String EditorState :=
  match loadExampleBody name s with
  | Except.ok s2 => Except.ok s2
  | Except.error _ => Except.ok s

/-- The state after a loadExample call (the Except layer stripped; it is
always ok). -/
def loadExampleState (name : String) (s : EditorState) : EditorState :=
  match loadExample name s with
  | Except.ok s2 => s2
  | Except.error _ => s
/-- The script removal step shared by runShader and stopShader
(OGLEditor.tsx lines 306-314 and 372-380): getElementById with the
well-known id yields one element when at least one is attached; it is then
detached from its parent.  Because the element's parent is read from the
element itself on the same thread, the removeChild call cannot fail; the
surrounding try/catch is dead defensive code. -/
def removeExistingScript (s : EditorState) : EditorState :=
  if s.scriptCount > 0 then { s with scriptCount := s.scriptCount - 1 } else s

/-- Invoking window.cleanupShader when it is defined (OGLEditor.tsx lines
358-364): the hook is arbitrary user code and may raise.  The hook is a
closure over the injected script's own variables; it has no access to the
component's state setters, so a successful call changes nothing in the
modelled state. -/
def invokeCleanupHook (s : EditorState) : Except String Unit :=
  if s.cleanupHook then
    if s.cleanupThrows then Except.error "cleanup hook raised" else Except.ok ()
  else Except.ok ()

/-- A try/catch whose handler only logs: whatever the wrapped computation
did, the surrounding code continues normally. -/
def catchLogged (r : Except String Unit) : Unit :=
  match r with
  | Except.ok _ => ()
  | Except.error _ => ()

/-- stopShader (OGLEditor.tsx lines 354-395): set the run flag to false
first; invoke the cleanup hook if present, catching and logging any
failure; cancel and clear the animation-frame handle; remove the injected
script element; clear the canvas (no modelled effect).  Every fallible
step is wrapped in try/catch, so the function is total: a call never
raises to the caller. -/
def stopShader (s : EditorState) : EditorState :=
  let s1 : EditorState := { s with isRunning := false }
  let _hookOutcome : Unit := catchLogged (invokeCleanupHook s1)
  let s2 : EditorState := { s1 with animationFrame := none }
  removeExistingScript s2

/-- runShader (OGLEditor.tsx lines 295-352): return immediately when the
canvas is absent; stop the previous run when the flag is set; set the run
flag; then, inside a try block: remove any lingering script element, clear
the canvas (no modelled effect), build the executable script from the
three buffers via buildExecutableScript, create a script element with the
well-known id and attach it to the page, whereupon it may install
window.cleanupShader.  If creating or attaching the element raises, the
catch logs and resets the run flag to false. -/
def runShader (s : EditorState) : EditorState :=
  if s.canvasPresent then
    let s1 : EditorState := if s.isRunning then stopShader s else s
    let s2 : EditorState := { s1 with isRunning := true }
    let s3 : EditorState := removeExistingScript s2
    if s3.injectionThrows then
      { s3 with isRunning := false }
    else
      { s3 with
        scriptCount := s3.scriptCount + 1
        cleanupHook := s3.scriptRegistersHook || s3.cleanupHook }
  else s

/-- The state of a freshly mounted OGLEditor with default props: the three
buffers hold the built-in defaults, nothing is running, no script element
and no hook exist, no animation handle is tracked.  The four environment
facts are parameters. -/
def initialState (cleanupThrows injectionThrows canvasPresent scriptRegistersHook : Bool) :
    EditorState :=
  { vertexShader := defaultVertexShader
    fragmentShader := defaultFragmentShader
    jsCode := defaultJavaScript
    isRunning := false
    scriptCount := 0
    cleanupHook := false
    cleanupThrows := cleanupThrows
    animationFrame := none
    canvasPresent := canvasPresent
    injectionThrows := injectionThrows
    scriptRegistersHook := scriptRegistersHook }

/-- The states reachable from a fresh mount through the component's event
handlers: run, stop, editing any of the three buffers, reset, import,
loading an example. -/
inductive Reachable : EditorState → Prop where
  | init (ct it cp sr : Bool) : Reachable (initialState ct it cp sr)
  | run {s : EditorState} : Reachable s → Reachable (runShader s)
  | stop {s : EditorState} : Reachable s → Reachable (stopShader s)
  | editVertex {s : EditorState} (t : String) :
      Reachable s → Reachable { s with vertexShader := t }
  | editFragment {s : EditorState} (t : String) :
      Reachable s → Reachable { s with fragmentShader := t }
  | editJs {s : EditorState} (t : String) :
      Reachable s → Reachable { s with jsCode := t }
  | reset {s : EditorState} : Reachable s → Reachable (resetCode s)
  | importP {s : EditorState} (doc : ProjectDoc) :
      Reachable s → Reachable (importProject doc s)
  | loadEx {s : EditorState} (name : String) :
      Reachable s → Reachable (loadExampleState name s)
/-- A parameter entry of a signature table record (label and
documentation). -/
structure ParameterInfo where
  label : String
  documentation : String
  deriving DecidableEq, Repr

/-- One record of the signatures table inside provideSignatureHelp
(OGLEditor.tsx lines 130-168). -/
structure SignatureInfo where
  label : String
  documentation : String
  parameters : List ParameterInfo
  deriving DecidableEq, Repr

/-- The mix record of the signatures table. -/
def mixSignature : SignatureInfo :=
  { label := "mix(x: T, y: T, a: float) -> T"
    documentation := "Linear interpolation between x and y based on a"
    parameters :=
      [ { label := "x", documentation := "First value" }
      , { label := "y", documentation := "Second value" }
      , { label := "a", documentation := "Interpolation factor (0.0 to 1.0)" } ] }

/-- The smoothstep record of the signatures table. -/
def smoothstepSignature : SignatureInfo :=
  { label := "smoothstep(edge0: float, edge1: float, x: float) -> float"
    documentation := "Smooth Hermite interpolation"
    parameters :=
      [ { label := "edge0", documentation := "Lower edge" }
      , { label := "edge1", documentation := "Upper edge" }
      , { label := "x", documentation := "Value to interpolate" } ] }

/-- The vec3 record of the signatures table. -/
def vec3Signature : SignatureInfo :=
  { label := "vec3(x: float, y: float, z: float) -> vec3"
    documentation := "Create a 3-component vector"
    parameters :=
      [ { label := "x", documentation := "X component" }
      , { label := "y", documentation := "Y component" }
      , { label := "z", documentation := "Z component" } ] }

/-- The vec4 record of the signatures table. -/
def vec4Signature : SignatureInfo :=
  { label := "vec4(x: float, y: float, z: float, w: float) -> vec4"
    documentation := "Create a 4-component vector"
    parameters :=
      [ { label := "x", documentation := "X component" }
      , { label := "y", documentation := "Y component" }
      , { label := "z", documentation := "Z component" }
      , { label := "w", documentation := "W component" } ] }

/-- The signatures lookup table keyed by function name. -/
def signatureTable (name : String) : Option SignatureInfo :=
  if name = "mix" then some mixSignature
  else if name = "smoothstep" then some smoothstepSignature
  else if name = "vec3" then some vec3Signature
  else if name = "vec4" then some vec4Signature
  else none

/-- A word character in the sense of the regex class used by the function
detection: ASCII letters, digits and underscore. -/
def isWordChar (c : Char) : Bool :=
  c.isAlpha || c.isDigit || c = '_'

/-- A whitespace character in the sense of the regex whitespace class, for
the characters that can occur on a single editor line. -/
def isJsSpace (c : Char) : Bool :=
  c = ' ' || c = '\t' || c = '\n' || c = '\r' || c = '\x0b' || c = '\x0c'

/-- Attempt of the function-detection regex at one start position: one or
more word characters, optional whitespace, an opening parenthesis, then
only non-closing-parenthesis characters up to the end of the text.  With
the trailing end anchor, backtracking the greedy word run can never help,
so the attempt either takes the whole word run or fails. -/
def matchCallAt (s : List Char) : Option (List Char) :=
  let w := s.takeWhile isWordChar
  if w.isEmpty then none
  else
    match (s.dropWhile isWordChar).dropWhile isJsSpace with
    | c :: tail => if c = '(' && !(tail.contains ')') then some w else none
    | [] => none

/-- The leftmost match of the function-detection regex (the semantics of
String.prototype.match with a non-global regex): start positions are tried
left to right and the first success wins; the returned value is the word
run, i.e. capture group one, the function name. -/
def findCallMatch : List Char → Option (List Char)
  | [] => none
  | c :: rest =>
    match matchCallAt (c :: rest) with
    | some w => some w
    | none => findCallMatch rest

/-- The value shape returned by provideSignatureHelp (OGLEditor.tsx lines
172-179): the matched signature list and the two active indices. -/
structure SignatureHelpResult where
  signatures : List SignatureInfo
  activeSignature : Nat
  activeParameter : Nat
  deriving DecidableEq, Repr

/-- provideSignatureHelp (OGLEditor.tsx lines 121-181): take the text of
the current line before the cursor (Monaco columns are one-based), run the
function detection on it, look the detected name up in the signatures
table, and on success return that signature with activeSignature 0 and
activeParameter 0. -/
def provideSignatureHelp (line : String) (column : Nat) : Option SignatureHelpResult :=
  match findCallMatch (line.toList.take (column - 1)) with
  | none => none
  | some w =>
    match signatureTable w.asString with
    | none => none
    | some sig => some { signatures := [sig], activeSignature := 0, activeParameter := 0 }
/-- Normal form of the shared removal step: on a Nat count, the guarded
decrement is plain truncated decrement. -/
theorem removeExistingScript_eq (t : EditorState) :
    removeExistingScript t = { t with scriptCount := t.scriptCount - 1 } := by
  unfold removeExistingScript
  split
  · rfl
  · rename_i h
    have h1 : t.scriptCount - 1 = t.scriptCount := by omega
    rw [h1]

/-- Normal form of stopShader: the run flag is cleared, the animation
handle is cleared, one script element is removed; the buffers and the
environment facts are untouched. -/
theorem stopShader_eq (s : EditorState) :
    stopShader s = { s with isRunning := false, animationFrame := none,
                            scriptCount := s.scriptCount - 1 } := by
  show removeExistingScript { s with isRunning := false, animationFrame := none } = _
  rw [removeExistingScript_eq]

/-- Normal form of runShader, by cases on the canvas, the run flag and the
injection outcome. -/
theorem runShader_eq (s : EditorState) :
    runShader s =
      if s.canvasPresent then
        if s.injectionThrows then
          { s with isRunning := false
                   animationFrame := if s.isRunning then none else s.animationFrame
                   scriptCount := (if s.isRunning then s.scriptCount - 1 else s.scriptCount) - 1 }
        else
          { s with isRunning := true
                   animationFrame := if s.isRunning then none else s.animationFrame
                   scriptCount := ((if s.isRunning then s.scriptCount - 1 else s.scriptCount) - 1) + 1
                   cleanupHook := s.scriptRegistersHook || s.cleanupHook }
      else s := by
  by_cases hc : s.canvasPresent = true <;>
  by_cases hr : s.isRunning = true <;>
  by_cases hi : s.injectionThrows = true <;>
    simp [runShader, stopShader_eq, removeExistingScript_eq, hc, hr, hi]

/-- runShader does not change the environment facts. -/
theorem runShader_env (s : EditorState) :
    (runShader s).canvasPresent = s.canvasPresent ∧
    (runShader s).injectionThrows = s.injectionThrows := by
  rw [runShader_eq]
  split
  · split <;> exact ⟨rfl, rfl⟩
  · exact ⟨rfl, rfl⟩

/-- A successful run (canvas present, injection does not raise) from a
page holding at most one script element leaves exactly one script
element. -/
theorem runShader_success_count (s : EditorState) (hc : s.canvasPresent = true)
    (hi : s.injectionThrows = false) (h1 : s.scriptCount ≤ 1) :
    (runShader s).scriptCount = 1 := by
  rw [runShader_eq]
  simp [hc, hi]
  split <;> omega

/-- loadExample on a name missing from the catalog leaves the state
unchanged. -/
theorem loadExampleState_none {name : String} {s : EditorState}
    (h : shaderExamples name = none) : loadExampleState name s = s := by
  unfold loadExampleState loadExample loadExampleBody
  rw [h]

/-- loadExample on a catalog name replaces the vertex and fragment
buffers with the catalog entry and changes nothing else. -/
theorem loadExampleState_some {name : String} {s : EditorState} {ex : ShaderExample}
    (h : shaderExamples name = some ex) :
    loadExampleState name s =
      { s with vertexShader := ex.vertex, fragmentShader := ex.fragment } := by
  unfold loadExampleState loadExample loadExampleBody
  rw [h]

/-- The page never holds more than one shader-script element: the count is
at most one in every reachable state. -/
theorem reachable_scriptCount {s : EditorState} (h : Reachable s) : s.scriptCount ≤ 1 := by
  induction h with
  | init ct it cp sr => exact Nat.zero_le 1
  | run h ih =>
      rw [runShader_eq]
      split
      · split <;> (simp; split <;> omega)
      · exact ih
  | stop h ih => rw [stopShader_eq]; simp; omega
  | editVertex t h ih => exact ih
  | editFragment t h ih => exact ih
  | editJs t h ih => exact ih
  | reset h ih => exact ih
  | importP doc h ih => exact ih
  | loadEx name h ih =>
      cases hx : shaderExamples name with
      | none => rw [loadExampleState_none hx]; exact ih
      | some ex => rw [loadExampleState_some hx]; exact ih
/-- A timestamp value for concrete export calls. -/
def tsSample : String := "2026-10-11T00:00:00.000Z"

/-- A small concrete editor state with nonempty buffers, used as input for
witnesses and counterexamples. -/
def tinyState : EditorState :=
  { vertexShader := "tinyV", fragmentShader := "tinyF", jsCode := "tinyJ"
    isRunning := false, scriptCount := 0, cleanupHook := false
    cleanupThrows := false, animationFrame := none, canvasPresent := false
    injectionThrows := false, scriptRegistersHook := false }

/-- A project whose vertex buffer is the empty string. -/
def emptyVertexState : EditorState := { tinyState with vertexShader := "" }

/-- Claim C1, counterexample: a project whose vertex buffer is the empty
string does not survive the export/import round trip, because importCode
reads data.vertexShader || defaultVertexShader and the empty string is
falsy, so the fresh project gets the built-in default instead. -/
theorem c1_counterexample :
    (importProject (exportProject emptyVertexState tsSample) tinyState).vertexShader ≠
      emptyVertexState.vertexShader := by decide

/-- Claim C1, amended: for every ShaderProject whose three fields are all
nonempty (truthy), exporting and importing into a fresh project yields
field-for-field equality with the original, the timestamp excluded; an
empty field is replaced by the built-in default on import. -/
theorem c1_roundtrip (s s0 : EditorState) (ts : String)
    (hv : s.vertexShader ≠ "") (hf : s.fragmentShader ≠ "") (hj : s.jsCode ≠ "") :
    (importProject (exportProject s ts) s0).vertexShader = s.vertexShader ∧
    (importProject (exportProject s ts) s0).fragmentShader = s.fragmentShader ∧
    (importProject (exportProject s ts) s0).jsCode = s.jsCode := by
  refine ⟨?_, ?_, ?_⟩ <;> simp [importProject, exportProject, jsOrDefault, hv, hf, hj]

/-- Witness for c1_roundtrip at a concrete state with nonempty buffers. -/
theorem c1_roundtrip_witness :
    (tinyState.vertexShader ≠ "" ∧ tinyState.fragmentShader ≠ "" ∧ tinyState.jsCode ≠ "") ∧
    ((importProject (exportProject tinyState tsSample) tinyState).vertexShader = tinyState.vertexShader ∧
     (importProject (exportProject tinyState tsSample) tinyState).fragmentShader = tinyState.fragmentShader ∧
     (importProject (exportProject tinyState tsSample) tinyState).jsCode = tinyState.jsCode) :=
  ⟨⟨by decide, by decide, by decide⟩,
   c1_roundtrip tinyState tinyState tsSample (by decide) (by decide) (by decide)⟩

/-- A vertex shader source consisting of a dollar sign followed by an
ampersand, the replacement pattern for the matched substring. -/
def dollarAmp : String := "$&"

/-- The empty string. -/
def emptyS : String := ""

/-- What the splice actually produces from the dollar-ampersand source: a
backslash followed by the whole placeholder token, because GetSubstitution
re-inserts the matched substring. -/
def corruptedSplice : String := "\\$\x7bvertexShader\x7d"

/-- Claim C2, failing input: the escape/splice is not lossless.  For the
vertex source consisting of dollar-ampersand, the escaped source is
backslash-dollar-ampersand, and String.prototype.replace interprets the
dollar-ampersand in the replacement as the matched substring, so the
placeholder region of the produced script is backslash followed by the
placeholder token itself; substituting the region back out yields the
token text, not the original source.  The escaping was clearly meant to
make the splice safe (it escapes dollar signs for exactly that reason), so
this is a slip in the code, not in the specification. -/
theorem c2_escape_not_lossless :
    buildExecutableScript vertexToken dollarAmp emptyS = corruptedSplice ∧
    unescapeS corruptedSplice = vertexToken ∧
    vertexToken ≠ dollarAmp := by
  refine ⟨rfl, rfl, by decide⟩

/-- The line of the signature-help test, with the cursor at its end
(column 11, one-based). -/
def mixCallLine : String := "mix(a, b,"

/-- Claim C3, counterexample: on the line mix(a, b, with the cursor at the
end, the signature help reports active parameter 0, not 2: the source
returns the literal activeParameter 0 and never counts commas. -/
theorem c3_counterexample :
    (provideSignatureHelp mixCallLine 11).map SignatureHelpResult.activeParameter = some 0 ∧
    (provideSignatureHelp mixCallLine 11).map SignatureHelpResult.activeParameter ≠ some 2 := by
  exact ⟨rfl, by decide⟩

/-- Claim C3, amended: whenever provideSignatureHelp returns a result, its
activeParameterIndex is 0 (and so is its activeSignature); the
implementation does not compute the active parameter from commas before
the cursor. -/
theorem c3_active_parameter (line : String) (column : Nat) (r : SignatureHelpResult)
    (h : provideSignatureHelp line column = some r) :
    r.activeParameter = 0 ∧ r.activeSignature = 0 := by
  unfold provideSignatureHelp at h
  cases hf : findCallMatch (line.toList.take (column - 1)) with
  | none =>
      rw [hf] at h
      exact absurd h (by simp)
  | some w =>
    rw [hf] at h
    cases hs : signatureTable w.asString with
    | none =>
        simp only [hs] at h
        exact absurd h (by simp)
    | some sig =>
        simp only [hs, Option.some.injEq] at h
        rw [← h]
        exact ⟨rfl, rfl⟩

/-- Witness for c3_active_parameter at the concrete mix line. -/
theorem c3_active_parameter_witness :
    provideSignatureHelp mixCallLine 11 =
      some { signatures := [mixSignature], activeSignature := 0, activeParameter := 0 } ∧
    (({ signatures := [mixSignature], activeSignature := 0, activeParameter := 0 } :
        SignatureHelpResult).activeParameter = 0 ∧
     ({ signatures := [mixSignature], activeSignature := 0, activeParameter := 0 } :
        SignatureHelpResult).activeSignature = 0) :=
  ⟨rfl, c3_active_parameter mixCallLine 11
    { signatures := [mixSignature], activeSignature := 0, activeParameter := 0 } rfl⟩

/-- Claim C4: stopping when already idle does not throw (stopShader is a
total function: every fallible step of the source is inside a try/catch,
modelled by catchLogged over the Except-valued hook call), leaves the run
flag false, and leaves the three text buffers unchanged. -/
theorem c4_stop_when_idle (s : EditorState) (h : s.isRunning = false) :
    (stopShader s).isRunning = false ∧
    (stopShader s).vertexShader = s.vertexShader ∧
    (stopShader s).fragmentShader = s.fragmentShader ∧
    (stopShader s).jsCode = s.jsCode := by
  rw [stopShader_eq]
  exact ⟨rfl, rfl, rfl, rfl⟩

/-- Witness for c4_stop_when_idle at a concrete idle state. -/
theorem c4_stop_when_idle_witness :
    tinyState.isRunning = false ∧
    ((stopShader tinyState).isRunning = false ∧
     (stopShader tinyState).vertexShader = tinyState.vertexShader ∧
     (stopShader tinyState).fragmentShader = tinyState.fragmentShader ∧
     (stopShader tinyState).jsCode = tinyState.jsCode) :=
  ⟨rfl, c4_stop_when_idle tinyState rfl⟩

/-- The name of the basic catalog entry. -/
def basicName : String := "basic"

/-- Claim C5: from every starting state, loading the basic example sets
the vertex and fragment buffers to the catalog's basic entry and leaves
the driver-script buffer (and everything else) byte-for-byte unchanged;
the call returns normally. -/
theorem c5_load_basic (s : EditorState) :
    loadExample basicName s =
      Except.ok { s with vertexShader := basicExample.vertex
                         fragmentShader := basicExample.fragment } ∧
    (loadExampleState basicName s).jsCode = s.jsCode :=
  ⟨rfl, rfl⟩

/-- The single-field import content. -/
def xStr : String := "X"

/-- The one-field document containing only a fragmentShader key. -/
def singleFieldDoc : ProjectDoc :=
  { vertexShader := none, fragmentShader := some xStr, jsCode := none, timestamp := none }

/-- Claim C6: importing a document whose only field is fragmentShader X
yields a project whose fragment buffer is X and whose vertex and
driver-script buffers are the built-in defaults, regardless of the state
before the import. -/
theorem c6_import_single_field (s : EditorState) :
    importProject singleFieldDoc s =
      { s with vertexShader := defaultVertexShader
               fragmentShader := xStr
               jsCode := defaultJavaScript } := rfl

/-- Claim C7: when script construction or attachment raises during a run,
the failure is caught (runShader is total: the catch handler logs and
resets the flag) and the state resolves to idle. -/
theorem c7_injection_failure (s : EditorState)
    (hc : s.canvasPresent = true) (hi : s.injectionThrows = true) :
    (runShader s).isRunning = false := by
  rw [runShader_eq]
  simp [hc, hi]

/-- Witness for c7_injection_failure at a fresh state whose injection
raises. -/
theorem c7_injection_failure_witness :
    ((initialState false true true false).canvasPresent = true ∧
     (initialState false true true false).injectionThrows = true) ∧
    (runShader (initialState false true true false)).isRunning = false :=
  ⟨⟨rfl, rfl⟩, c7_injection_failure (initialState false true true false) rfl rfl⟩

/-- Claim C8: in every reachable state at most one shader-script element
is attached to the page, and two successive successful Start calls leave
exactly one. -/
theorem c8_single_script :
    (∀ s : EditorState, Reachable s → s.scriptCount ≤ 1) ∧
    (∀ s : EditorState, Reachable s → s.canvasPresent = true → s.injectionThrows = false →
      (runShader (runShader s)).scriptCount = 1) := by
  constructor
  · intro s h
    exact reachable_scriptCount h
  · intro s h hc hi
    have h1 : s.scriptCount ≤ 1 := reachable_scriptCount h
    have h2 : (runShader s).scriptCount = 1 := runShader_success_count s hc hi h1
    have henv := runShader_env s
    refine runShader_success_count (runShader s) ?_ ?_ (by omega)
    · rw [henv.1, hc]
    · rw [henv.2, hi]

/-- Witness for c8_single_script at the fresh state with a canvas and a
non-raising injection. -/
theorem c8_single_script_witness :
    (initialState false false true false).scriptCount ≤ 1 ∧
    ((initialState false false true false).canvasPresent = true ∧
     (initialState false false true false).injectionThrows = false) ∧
    (runShader (runShader (initialState false false true false))).scriptCount = 1 :=
  ⟨c8_single_script.1 (initialState false false true false) (Reachable.init false false true false),
   ⟨rfl, rfl⟩,
   c8_single_script.2 (initialState false false true false) (Reachable.init false false true false) rfl rfl⟩

/-- A name not present in the example catalog. -/
def unknownName : String := "glow"

/-- Claim C9, counterexample: loading an example whose name is not in the
catalog does NOT fail with a caller-visible error: the TypeError raised by
reading .vertex on the undefined lookup result is caught inside
loadExample and only logged, so the caller sees a normal return and the
state is unchanged. -/
theorem c9_counterexample :
    loadExample unknownName tinyState = Except.ok tinyState ∧
    ¬ ∃ e, loadExample unknownName tinyState = Except.error e := by
  refine ⟨rfl, ?_⟩
  rintro ⟨e, he⟩
  rw [show loadExample unknownName tinyState = Except.ok tinyState from rfl] at he
  exact Except.noConfusion he

/-- Claim C9, amended: for every name not in the catalog, loadExample
catches the lookup failure internally (logging it), returns normally to
the caller, and performs no state mutation at all. -/
theorem c9_not_found (name : String) (s : EditorState) (h : shaderExamples name = none) :
    loadExample name s = Except.ok s := by
  unfold loadExample loadExampleBody
  rw [h]

/-- Witness for c9_not_found at a concrete unknown name. -/
theorem c9_not_found_witness :
    shaderExamples unknownName = none ∧
    loadExample unknownName tinyState = Except.ok tinyState :=
  ⟨rfl, c9_not_found unknownName tinyState rfl⟩

/-- Claim C10: on import, a field that is present but equal to the empty
string behaves exactly like an absent field: the corresponding buffer is
set to the built-in default, because the fallback tests JavaScript
falsiness, not key presence. -/
theorem c10_empty_field_is_default (a b ts : Option String) (s : EditorState) :
    importProject { vertexShader := some emptyS, fragmentShader := a, jsCode := b, timestamp := ts } s
      = importProject { vertexShader := none, fragmentShader := a, jsCode := b, timestamp := ts } s ∧
    importProject { vertexShader := a, fragmentShader := some emptyS, jsCode := b, timestamp := ts } s
      = importProject { vertexShader := a, fragmentShader := none, jsCode := b, timestamp := ts } s ∧
    importProject { vertexShader := a, fragmentShader := b, jsCode := some emptyS, timestamp := ts } s
      = importProject { vertexShader := a, fragmentShader := b, jsCode := none, timestamp := ts } s ∧
    (importProject { vertexShader := some emptyS, fragmentShader := a, jsCode := b, timestamp := ts } s).vertexShader
      = defaultVertexShader ∧
    (importProject { vertexShader := a, fragmentShader := some emptyS, jsCode := b, timestamp := ts } s).fragmentShader
      = defaultFragmentShader ∧
    (importProject { vertexShader := a, fragmentShader := b, jsCode := some emptyS, timestamp := ts } s).jsCode
      = defaultJavaScript :=
  ⟨rfl, rfl, rfl, rfl, rfl, rfl⟩
